import Mathlib

/-!
Shallow embedding of src/visualization.py: a linear script that loads a
gas-price table and runs three renderers (plotTimeGraph, plotHeatMap,
plotInteractive) over it, saving three output files.

Modelling conventions:
* A dataframe is a List Row.  Prices are ℚ with NaN-able cells as Option ℚ.
* The Query Time column holds a TimeCell: a raw parseable value, raw
  unparseable text, or the result of pd.to_datetime(errors="coerce")
  (coerced none models NaT).  Timestamps are minutes since an epoch and
  .dt.date is division by 1440.
* The Location column holds a LocCell; eval(x)["Latitude"] is modelled by
  evalLoc, returning none exactly when the Python eval would raise.
* pandas in-place column assignment to the frame of the caller (df["c"] = ...)
  is modelled by the *Effect functions that return the mutated shared frame;
  df.dropna / df.copy produce fresh lists, so later mutations are local.
-/

namespace GasViz

/-- A cell of the Query Time column.  valid/invalid are raw spreadsheet
values (parseable or not); coerced is the result of
pd.to_datetime(errors="coerce"), with none standing for NaT. -/
inductive TimeCell
  | valid (t : Nat)
  | invalid (s : String)
  | coerced (t : Option Nat)
deriving DecidableEq

/-- A cell of the Location column: a serialized mapping with Latitude and
Longitude, or malformed text on which eval would raise. -/
inductive LocCell
  | valid (lat lon : ℚ)
  | malformed (s : String)
deriving DecidableEq

/-- One row of the loaded table.  latitude and longitude model the columns
added in place by plotHeatMap (none = column absent/NaN). -/
structure Row where
  stationId : Nat
  stationName : String
  address : String
  location : LocCell
  timeTag : String
  queryTime : TimeCell
  regularPrice : Option ℚ
  premiumPrice : Option ℚ
  latitude : Option ℚ := none
  longitude : Option ℚ := none
deriving DecidableEq

/-- pd.to_datetime(errors="coerce") on one cell: parseable values become
timestamps, unparseable text becomes NaT, already-coerced cells unchanged. -/
def toDatetime : TimeCell → TimeCell
  | .valid t => .coerced (some t)
  | .invalid _ => .coerced none
  | .coerced o => .coerced o

/-- Is the cell NaT (what dropna(subset=["Query Time"]) removes)? -/
def isNaT : TimeCell → Bool
  | .coerced none => true
  | _ => false

/-- The timestamp carried by a cell, if any. -/
def qtimeVal : TimeCell → Option Nat
  | .valid t => some t
  | .coerced (some t) => some t
  | _ => none

/-- Char lowercasing as in str.lower (ASCII letters). -/
def lowChar (c : Char) : Char :=
  if 65 ≤ c.toNat ∧ c.toNat ≤ 90 then Char.ofNat (c.toNat + 32) else c

/-- str.lower() on a whole string. -/
def lowerStr (s : String) : String := ⟨s.data.map lowChar⟩

/-- Whitespace for str.strip(). -/
def isWs (c : Char) : Bool := c = ' ' || c = '\t' || c = '\n' || c = '\r'

/-- str.strip(): drop whitespace at both ends. -/
def stripStr (s : String) : String :=
  ⟨((s.data.dropWhile isWs).reverse.dropWhile isWs).reverse⟩

/-- df["Time Tag"].str.lower().str.strip() on one cell. -/
def normTag (s : String) : String := stripStr (lowerStr s)

/-- In-place coercion of the Query Time column, applied to one row
(visualization.py line 31). -/
def coerceRow (r : Row) : Row := { r with queryTime := toDatetime r.queryTime }

/-- Time-tag normalization applied to one row (line 34 / line 198). -/
def normRow (r : Row) : Row := { r with timeTag := normTag r.timeTag }

/-- The derived Date column: calendar date truncated from the timestamp. -/
def dateOf (r : Row) : Option Nat := (qtimeVal r.queryTime).map (fun t => t / 1440)

/-- Does the Query Time of the row parse (survive coercion + dropna)? -/
def hasTime (r : Row) : Bool := !(isNaT (toDatetime r.queryTime))

/-- Coerce, then drop, then normalize the row. -/
def cleanRow (r : Row) : Row := normRow (coerceRow r)

/-- The cleaned frame underlying plotTimeGraph (lines 31-34): coerce
Query Time, drop NaT rows, normalize Time Tag. -/
def timeGraphData (df : List Row) : List Row :=
  ((df.map coerceRow).filter (fun r => !(isNaT r.queryTime))).map normRow

/-- The preprocessing in plotInteractive (lines 194-198) repeats the same steps
on its own copy of the frame it receives. -/
def interactiveData (df : List Row) : List Row :=
  ((df.map coerceRow).filter (fun r => !(isNaT r.queryTime))).map normRow

/-- Mean of a list of rationals (sum over count). -/
def meanQ (l : List ℚ) : ℚ := l.sum / (l.length : ℚ)

/-- Mean that is NaN (none) on an empty list, as pandas mean is. -/
def meanOpt (l : List ℚ) : Option ℚ := if l = [] then none else some (meanQ l)

/-- One cell of a pivot_table(index="Date", columns="Time Tag",
aggfunc="mean"): mean of the chosen price over rows with that date and
tag, skipping missing values; none when no data. -/
def cellMean (rows : List Row) (val : Row → Option ℚ) (d : Nat) (tg : String) :
    Option ℚ :=
  meanOpt ((rows.filter (fun r => dateOf r == some d && r.timeTag == tg)).filterMap val)

/-- The whole pivot table as data: one triple per (date, tag) pair. -/
def pivotData (rows : List Row) (val : Row → Option ℚ) :
    List (Nat × String × Option ℚ) :=
  (((rows.filterMap dateOf).dedup).map (fun d =>
    ((rows.map (fun r => r.timeTag)).dedup).map (fun tg =>
      (d, tg, cellMean rows val d tg)))).flatten

/-- eval(x)["Latitude"], eval(x)["Longitude"] on one Location cell:
none models the exception raised on malformed text (line 85-86). -/
def evalLoc : LocCell → Option (ℚ × ℚ)
  | .valid la lo => some (la, lo)
  | .malformed _ => none

/-- Add the Latitude and Longitude columns to one row; none if eval raises. -/
def setCoords (r : Row) : Option Row :=
  (evalLoc r.location).map (fun p => { r with latitude := some p.1, longitude := some p.2 })

/-- Apply a fallible per-row function to a whole column; the first failure
aborts the whole column assignment (pandas apply propagates the exception). -/
def mapOpt (f : α → Option β) : List α → Option (List β)
  | [] => some []
  | a :: l =>
    match f a, mapOpt f l with
    | some b, some bl => some (b :: bl)
    | _, _ => none

/-- dropna(subset=["Regular Price", "Premium Price"]) (line 89). -/
def dropnaPrices (rows : List Row) : List Row :=
  rows.filter (fun r => r.regularPrice.isSome && r.premiumPrice.isSome)

/-- Series.clip(lower, upper) on one value. -/
def clipQ (lo hi q : ℚ) : ℚ := min hi (max lo q)

/-- Clip both price columns of one row (lines 92-93): regular to [100,200],
premium to [150,250]; missing values stay missing (dropna already ran). -/
def clipRow (r : Row) : Row :=
  { r with regularPrice := r.regularPrice.map (clipQ 100 200),
           premiumPrice := r.premiumPrice.map (clipQ 150 250) }

/-- Clip the price columns of the whole frame. -/
def clipPrices (rows : List Row) : List Row := rows.map clipRow

/-- The groupby key of line 96-97. -/
abbrev GroupKey := Nat × String × Option ℚ × Option ℚ

/-- The (Station ID, Station Name, Latitude, Longitude) key of one row. -/
def keyOf (r : Row) : GroupKey := (r.stationId, r.stationName, r.latitude, r.longitude)

/-- One aggregated station of avg_prices. -/
structure AggRow where
  stationId : Nat
  stationName : String
  latitude : Option ℚ
  longitude : Option ℚ
  regular : ℚ
  premium : ℚ
deriving DecidableEq

/-- The rows of one group. -/
def groupOf (rows : List Row) (k : GroupKey) : List Row :=
  rows.filter (fun r => decide (keyOf r = k))

/-- groupby(["Station ID","Station Name","Latitude","Longitude"])
.agg(mean) (lines 96-98).  Groups are listed in first-occurrence order;
pandas sorts group keys, but no property below depends on group order. -/
def avgPrices (rows : List Row) : List AggRow :=
  ((rows.map keyOf).dedup).map (fun k =>
    { stationId := k.1, stationName := k.2.1,
      latitude := k.2.2.1, longitude := k.2.2.2,
      regular := meanQ ((groupOf rows k).filterMap (fun r => r.regularPrice)),
      premium := meanQ ((groupOf rows k).filterMap (fun r => r.premiumPrice)) })

/-- The frame feeding the heat-map aggregation (lines 85-93): coordinates
added (none = eval raised and the renderer died), missing prices dropped,
prices clipped. -/
def heatBase (df : List Row) : Option (List Row) :=
  (mapOpt setCoords df).map (fun l => clipPrices (dropnaPrices l))

/-- avg_prices as computed from the frame plotHeatMap receives. -/
def heatAgg (df : List Row) : Option (List AggRow) :=
  (heatBase df).map avgPrices

/-- Minimum of a column; none on an empty frame (pandas NaN). -/
def minQ : List ℚ → Option ℚ
  | [] => none
  | a :: l =>
    match minQ l with
    | none => some a
    | some b => some (min a b)

/-- Maximum of a column; none on an empty frame (pandas NaN). -/
def maxQ : List ℚ → Option ℚ
  | [] => none
  | a :: l =>
    match maxQ l with
    | none => some a
    | some b => some (max a b)

/-- The comparison min < max with pandas NaN semantics: any comparison
against NaN is false. -/
def minLtB : Option ℚ → Option ℚ → Bool
  | some a, some b => decide (a < b)
  | _, _ => false

/-- min_regular < max_regular (line 103). -/
def regCond (agg : List AggRow) : Bool :=
  minLtB (minQ (agg.map (fun a => a.regular))) (maxQ (agg.map (fun a => a.regular)))

/-- min_premium < max_premium (line 118). -/
def premCond (agg : List AggRow) : Bool :=
  minLtB (minQ (agg.map (fun a => a.premium))) (maxQ (agg.map (fun a => a.premium)))

/-- branca.colormap.LinearColormap as data. -/
structure LinearColormap where
  colors : List String
  vmin : ℚ
  vmax : ℚ
  caption : String
deriving DecidableEq

/-- The regular-price scale of lines 104-109.  The getD defaults are never
exercised: the scale is only built when min and max exist (regCond). -/
def mkRegScale (agg : List AggRow) : LinearColormap :=
  { colors := ["green", "yellow", "red"],
    vmin := (minQ (agg.map (fun a => a.regular))).getD 0,
    vmax := (maxQ (agg.map (fun a => a.regular))).getD 0,
    caption := "Regular Gas Prices" }

/-- The premium-price scale of lines 119-124. -/
def mkPremScale (agg : List AggRow) : LinearColormap :=
  { colors := ["blue", "purple", "pink"],
    vmin := (minQ (agg.map (fun a => a.premium))).getD 0,
    vmax := (maxQ (agg.map (fun a => a.premium))).getD 0,
    caption := "Premium Gas Prices" }

/-- The Python local regular_color_scale: bound only inside the
if min_regular < max_regular branch (lines 103-109). -/
def regularColorScaleEnv (agg : List AggRow) : Option LinearColormap :=
  if regCond agg then some (mkRegScale agg) else none

/-- The Python local premium_color_scale (lines 118-124). -/
def premiumColorScaleEnv (agg : List AggRow) : Option LinearColormap :=
  if premCond agg then some (mkPremScale agg) else none

/-- Where a value falls on a scale, as the interpolation position used to
pick the marker color. -/
def colorAt (cs : LinearColormap) (v : ℚ) : ℚ := (v - cs.vmin) / (cs.vmax - cs.vmin)

/-- Two-decimal display of a price, as the format spec .2f renders it. -/
def fmt2 (q : ℚ) : String :=
  let s : Int := ⌊q * 100 + 1 / 2⌋
  let n : Nat := s.natAbs
  (if s < 0 then "-" else "") ++ toString (n / 100) ++ "." ++
    (if n % 100 < 10 then "0" else "") ++ toString (n % 100)

/-- One folium.CircleMarker; colorPos stands for the interpolated color
(color and fill_color are set to the same value in the source). -/
structure CircleMarker where
  lat : Option ℚ
  lon : Option ℚ
  popup : String
  colorPos : ℚ
deriving DecidableEq

/-- The regular-price marker of lines 139-150. -/
def mkRegMarker (cs : LinearColormap) (a : AggRow) : CircleMarker :=
  { lat := a.latitude, lon := a.longitude,
    popup := "Station: " ++ a.stationName ++ "<br>Regular Price: " ++ fmt2 a.regular,
    colorPos := colorAt cs a.regular }

/-- The premium-price marker of lines 160-171. -/
def mkPremMarker (cs : LinearColormap) (a : AggRow) : CircleMarker :=
  { lat := a.latitude, lon := a.longitude,
    popup := "Station: " ++ a.stationName ++ "<br>Premium Price: " ++ fmt2 a.premium,
    colorPos := colorAt cs a.premium }

/-- The warning of lines 111-113 (degenerate regular range). -/
def regWarn (agg : List AggRow) : List String :=
  if regCond agg then [] else ["Warning: Invalid thresholds for regular prices."]

/-- The warning of lines 126-128 (degenerate premium range). -/
def premWarn (agg : List AggRow) : List String :=
  if premCond agg then [] else ["Warning: Invalid thresholds for premium prices."]

/-- Building the regular layer with Python name-lookup semantics: the body
of the guard reads regular_color_scale from the local environment; the
outer none would be an unbound-name error, inner none means the layer was
not added to the map (line 136-153). -/
def regularLayerBuild (agg : List AggRow) : Option (Option (List CircleMarker)) :=
  if regCond agg then
    (regularColorScaleEnv agg).map (fun cs => some (agg.map (mkRegMarker cs)))
  else some none

/-- The regular legend with name-lookup semantics (line 153). -/
def regularLegendBuild (agg : List AggRow) : Option (Option LinearColormap) :=
  if regCond agg then (regularColorScaleEnv agg).map some else some none

/-- Building the premium layer with name-lookup semantics (lines 157-174). -/
def premiumLayerBuild (agg : List AggRow) : Option (Option (List CircleMarker)) :=
  if premCond agg then
    (premiumColorScaleEnv agg).map (fun cs => some (agg.map (mkPremMarker cs)))
  else some none

/-- The premium legend with name-lookup semantics (line 174). -/
def premiumLegendBuild (agg : List AggRow) : Option (Option LinearColormap) :=
  if premCond agg then (premiumColorScaleEnv agg).map some else some none

/-- The saved folium map as data. -/
structure HeatMapOut where
  center : Option ℚ × Option ℚ
  regularLayer : Option (List CircleMarker)
  regularLegend : Option LinearColormap
  premiumLayer : Option (List CircleMarker)
  premiumLegend : Option LinearColormap
  log : List String
deriving DecidableEq

/-- Map center: mean of the aggregated coordinates (line 131). -/
def centerOf (agg : List AggRow) : Option ℚ × Option ℚ :=
  (meanOpt (agg.filterMap (fun a => a.latitude)),
   meanOpt (agg.filterMap (fun a => a.longitude)))

/-- The rendered heat map (lines 100-177), with each layer and legend
present exactly when its range check passed. -/
def heatMapRender (agg : List AggRow) : HeatMapOut :=
  { center := centerOf agg,
    regularLayer := if regCond agg then some (agg.map (mkRegMarker (mkRegScale agg))) else none,
    regularLegend := if regCond agg then some (mkRegScale agg) else none,
    premiumLayer := if premCond agg then some (agg.map (mkPremMarker (mkPremScale agg))) else none,
    premiumLegend := if premCond agg then some (mkPremScale agg) else none,
    log := regWarn agg ++ premWarn agg }

/-- The rendering with Python name-lookup semantics made explicit: none
would mean some guarded branch read an unbound color-scale name. -/
def heatMapRenderChecked (agg : List AggRow) : Option HeatMapOut :=
  match regularLayerBuild agg, regularLegendBuild agg,
        premiumLayerBuild agg, premiumLegendBuild agg with
  | some rl, some rleg, some pl, some pleg =>
    some { center := centerOf agg,
           regularLayer := rl, regularLegend := rleg,
           premiumLayer := pl, premiumLegend := pleg,
           log := regWarn agg ++ premWarn agg }
  | _, _, _, _ => none

/-- The fixed tag-to-color lookup of lines 201-206, with the .get
default "gray". -/
def timeColors (tg : String) : String :=
  if tg = "morning" then "orange"
  else if tg = "afternoon" then "green"
  else if tg = "evening" then "blue"
  else if tg = "midnight" then "purple"
  else "gray"

/-- One plotly scatter trace. -/
structure ScatterTrace where
  traceName : String
  xs : List (Option Nat)
  ys : List (Option ℚ)
  color : String
  symbol : String
  hovertext : List String
deriving DecidableEq

/-- The hover text of lines 222-223. -/
def hoverOf (r : Row) : String :=
  "Station: " ++ r.stationName ++ "<br>ID: " ++ toString r.stationId ++
    "<br>Add: " ++ r.address

/-- The regular-price traces added to row 1 (lines 213-227): one trace per
distinct normalized tag, in first-appearance order (pandas unique). -/
def regTraces (cleaned : List Row) : List ScatterTrace :=
  ((cleaned.map (fun r => r.timeTag)).dedup).map (fun tg =>
    let sub := cleaned.filter (fun r => r.timeTag == tg)
    { traceName := "Regular - " ++ tg,
      xs := sub.map (fun r => qtimeVal r.queryTime),
      ys := sub.map (fun r => r.regularPrice),
      color := timeColors tg, symbol := "circle",
      hovertext := sub.map hoverOf })

/-- The premium-price traces added to row 2 (lines 230-244). -/
def premTraces (cleaned : List Row) : List ScatterTrace :=
  ((cleaned.map (fun r => r.timeTag)).dedup).map (fun tg =>
    let sub := cleaned.filter (fun r => r.timeTag == tg)
    { traceName := "Premium - " ++ tg,
      xs := sub.map (fun r => qtimeVal r.queryTime),
      ys := sub.map (fun r => r.premiumPrice),
      color := timeColors tg, symbol := "diamond",
      hovertext := sub.map hoverOf })

/-- All traces of the interactive figure, from the frame the renderer
receives. -/
def interactiveTraces (df : List Row) : List ScatterTrace :=
  regTraces (interactiveData df) ++ premTraces (interactiveData df)

/-! Shared-frame effects of the three renderers.

In the script (lines 269-271) all three are called on the single global df.
df["Query Time"] = ... at line 31 and df["Latitude"] / df["Longitude"] = ...
at lines 85-86 assign columns of the frame of the caller in place; the
df = df.dropna(...) rebinding at lines 32/89 and df.copy() at line 194
produce fresh frames, so every later assignment is local to the renderer. -/

/-- What plotTimeGraph leaves behind in the shared frame: the in-place
Query Time coercion of line 31. -/
def plotTimeGraphEffect (df : List Row) : List Row := df.map coerceRow

/-- What plotHeatMap leaves behind in the shared frame: the Latitude and
Longitude columns of lines 85-86 (none = eval raised, killing the script). -/
def plotHeatMapEffect (df : List Row) : Option (List Row) := mapOpt setCoords df

/-- What plotInteractive leaves behind: nothing, since it transforms only
its df.copy() (line 194). -/
def plotInteractiveEffect (df : List Row) : List Row := df

/-- The frame plotHeatMap receives: the loaded frame after plotTimeGraph
has run on it. -/
def heatMapReceives (df0 : List Row) : List Row := plotTimeGraphEffect df0

/-- The frame plotInteractive receives: the loaded frame after both
earlier renderers have run on it. -/
def interactiveReceives (df0 : List Row) : Option (List Row) :=
  plotHeatMapEffect (heatMapReceives df0)

/-! Output files and the delete-then-save step shared by all renderers. -/

/-- ts_output_path. -/
def tsOutputPath : String := "./output/time_series.png"

/-- hm_output_path. -/
def hmOutputPath : String := "./output/heatmap.html"

/-- it_output_path. -/
def itOutputPath : String := "./output/interactive_graph.html"

/-- The saved artifact of each renderer, as the data it renders. -/
inductive FileContent
  | tsPng (regular premium : List (Nat × String × Option ℚ))
  | hmHtml (out : HeatMapOut)
  | itHtml (traces : List ScatterTrace)
deriving DecidableEq

/-- The time-series image as a function of the frame plotTimeGraph
receives (the pristine loaded frame). -/
def tsContent (df : List Row) : FileContent :=
  .tsPng (pivotData (timeGraphData df) (fun r => r.regularPrice))
         (pivotData (timeGraphData df) (fun r => r.premiumPrice))

/-- The heat-map HTML as a function of the coordinate-bearing frame. -/
def hmContent (dfc : List Row) : FileContent :=
  .hmHtml (heatMapRender (avgPrices (clipPrices (dropnaPrices dfc))))

/-- The dashboard HTML as a function of the frame plotInteractive receives. -/
def itContent (dfc : List Row) : FileContent :=
  .itHtml (interactiveTraces dfc)

/-- The output directory as a path-to-content association list. -/
abbrev FS := List (String × FileContent)

/-- os.path.exists / reading a file. -/
def fsLookup (fs : FS) (p : String) : Option FileContent :=
  (fs.find? (fun e => e.1 == p)).map (fun e => e.2)

/-- os.remove. -/
def fsRemove (fs : FS) (p : String) : FS := fs.filter (fun e => !(e.1 == p))

/-- Creating a file (the path is absent when this runs). -/
def fsWrite (fs : FS) (p : String) (c : FileContent) : FS := fs ++ [(p, c)]

/-- State threaded through the pipeline: the files, the debug log, and the
write operations actually performed. -/
structure PState where
  fs : FS
  log : List String
  writes : List (String × FileContent)
deriving DecidableEq

/-- The "An error occurred: ..." line of each except branch. -/
def errLog (msg : String) : String := "An error occurred: " ++ msg

/-- The "already exists. Deleting it." debug line. -/
def deletingLog (p : String) : String :=
  "File " ++ p ++ " already exists. Deleting it."

/-- The per-renderer saved-confirmation line (each renderer words it
differently; the wording is not claim-relevant, the path is). -/
def savedLog (p : String) : String := "Saved " ++ p

/-- The try/except delete-then-save block shared by the three renderers
(lines 71-80, 178-188, 257-267).  rf injects an exception into os.remove,
sf into the save call; every exception path falls into the except branch,
which only logs — the function always returns a state. -/
def saveStep (rf sf : Bool) (p : String) (c : FileContent) (st : PState) : PState :=
  match fsLookup st.fs p with
  | some _ =>
    let st1 : PState := { st with log := st.log ++ [deletingLog p] }
    if rf then { st1 with log := st1.log ++ [errLog ("remove failed: " ++ p)] }
    else
      let st2 : PState := { st1 with fs := fsRemove st1.fs p }
      if sf then { st2 with log := st2.log ++ [errLog ("save failed: " ++ p)] }
      else { st2 with fs := fsWrite st2.fs p c,
                      writes := st2.writes ++ [(p, c)],
                      log := st2.log ++ [savedLog p] }
  | none =>
    if sf then { st with log := st.log ++ [errLog ("save failed: " ++ p)] }
    else { st with fs := fsWrite st.fs p c,
                   writes := st.writes ++ [(p, c)],
                   log := st.log ++ [savedLog p] }

/-- Whether the delete-then-save block raises under the given fault
injection: os.remove only runs when the file exists, the save always runs. -/
def stepThrows (rf sf : Bool) (fs : FS) (p : String) : Bool :=
  (if (fsLookup fs p).isSome then rf else false) || sf

/-- The module body (lines 269-271): the three renderers in order on the
shared frame, each ending in its delete-then-save block.  none models the
script dying at the unguarded eval in plotHeatMap. -/
def runPipeline (rf1 sf1 rf2 sf2 rf3 sf3 : Bool) (df0 : List Row) (st : PState) :
    Option PState :=
  let st1 := saveStep rf1 sf1 tsOutputPath (tsContent df0) st
  match mapOpt setCoords (plotTimeGraphEffect df0) with
  | none => none
  | some df2 =>
    let st2 := saveStep rf2 sf2 hmOutputPath (hmContent df2) st1
    let st3 := saveStep rf3 sf3 itOutputPath (itContent df2) st2
    some st3

/-! Concrete sample rows used by counterexamples and witnesses. -/

/-- A morning observation: regular 110, premium 160, tag "Morning". -/
def rowMorningA : Row :=
  { stationId := 1, stationName := "Station A", address := "1 Main St",
    location := .valid 43 (-79), timeTag := "Morning",
    queryTime := .valid 600, regularPrice := some 110, premiumPrice := some 160 }

/-- A second morning observation: regular 130, premium 180, tag "morning "
(trailing blank). -/
def rowMorningB : Row :=
  { stationId := 1, stationName := "Station A", address := "1 Main St",
    location := .valid 43 (-79), timeTag := "morning ",
    queryTime := .valid 700, regularPrice := some 130, premiumPrice := some 180 }

/-- An evening observation with out-of-range prices: regular 999, premium 5. -/
def rowEvening : Row :=
  { stationId := 1, stationName := "Station A", address := "1 Main St",
    location := .valid 43 (-79), timeTag := "Evening",
    queryTime := .valid 1200, regularPrice := some 999, premiumPrice := some 5 }

/-- A row whose Query Time does not parse but whose prices and location
are fine. -/
def rowBadTime : Row :=
  { stationId := 2, stationName := "Station B", address := "2 Side St",
    location := .valid 44 (-80), timeTag := "Evening",
    queryTime := .invalid "not a timestamp", regularPrice := some 120,
    premiumPrice := some 170 }

/-! Helper lemmas. -/

/-- If the whole column assignment succeeded, every successful per-row
application lands in the result. -/
theorem mapOpt_mem (f : α → Option β) :
    ∀ {l : List α} {l2 : List β} {a : α} {b : β},
      mapOpt f l = some l2 → a ∈ l → f a = some b → b ∈ l2 := by
  intro l
  induction l with
  | nil => intro l2 a b h ha hb; simp at ha
  | cons x xs ih =>
    intro l2 a b h ha hb
    rcases hfx : f x with _ | bx <;> rcases hm : mapOpt f xs with _ | bl <;>
      simp [mapOpt, hfx, hm] at h
    subst h
    rcases List.mem_cons.mp ha with rfl | hmem
    · rw [hb] at hfx
      simp at hfx
      simp [hfx]
    · exact List.mem_cons_of_mem _ (ih hm hmem hb)

/-- C2 (corrected), counterexample: with a single loaded row whose Query
Time is unparseable, the frame plotHeatMap receives is not the loaded
frame (plotTimeGraph has coerced the shared Query Time column in place),
and the frame plotInteractive receives is not the one plotHeatMap
received (plotHeatMap has added the Latitude/Longitude columns in place). -/
theorem renderer_frames_not_independent_cex :
    heatMapReceives [rowBadTime] ≠ [rowBadTime]
    ∧ interactiveReceives [rowBadTime] ≠ some (heatMapReceives [rowBadTime]) := by
  decide

/-- C2 (amended): the three renderers share one frame rather than working
on independent copies.  plotHeatMap receives the loaded frame with
the in-place Query Time coercion of plotTimeGraph applied; plotInteractive
additionally sees the coordinate columns added by plotHeatMap; only
plotInteractive leaves the shared frame untouched (it copies).  The
in-place coercion changes no row count and no other column. -/
theorem renderer_frame_sharing (df0 : List Row) :
    heatMapReceives df0 = df0.map coerceRow
    ∧ interactiveReceives df0 = mapOpt setCoords (df0.map coerceRow)
    ∧ (∀ frame : List Row, plotInteractiveEffect frame = frame)
    ∧ (heatMapReceives df0).map (fun r => r.regularPrice) = df0.map (fun r => r.regularPrice)
    ∧ (heatMapReceives df0).map (fun r => r.premiumPrice) = df0.map (fun r => r.premiumPrice)
    ∧ (heatMapReceives df0).map (fun r => r.timeTag) = df0.map (fun r => r.timeTag)
    ∧ (heatMapReceives df0).length = df0.length := by
  refine ⟨rfl, rfl, fun _ => rfl, ?_, ?_, ?_, List.length_map _ _⟩ <;>
    · rw [heatMapReceives, plotTimeGraphEffect, List.map_map]
      rfl

/-- C3: both time-based renderers keep exactly the rows whose Query Time
parses: the underlying cleaned frame is the parseable rows, coerced and
tag-normalized, so a row with an unparseable timestamp is absent from the
data under both the pivot tables and the dashboard traces. -/
theorem unparseable_time_rows_excluded (df0 frame : List Row) :
    timeGraphData df0 = (df0.filter hasTime).map cleanRow
    ∧ interactiveData frame = (frame.filter hasTime).map cleanRow
    ∧ (∀ r : Row, r ∈ timeGraphData df0 → isNaT r.queryTime = false)
    ∧ (∀ r : Row, r ∈ interactiveData frame → isNaT r.queryTime = false) := by
  have hchar : ∀ l : List Row,
      ((l.map coerceRow).filter (fun r => !(isNaT r.queryTime))).map normRow
        = (l.filter hasTime).map cleanRow := by
    intro l
    rw [List.filter_map, List.map_map]
    rfl
  have hclean : ∀ l : List Row, ∀ r : Row,
      r ∈ ((l.map coerceRow).filter (fun r => !(isNaT r.queryTime))).map normRow →
        isNaT r.queryTime = false := by
    intro l r hr
    rcases List.mem_map.mp hr with ⟨r0, hr0, rfl⟩
    have := (List.mem_filter.mp hr0).2
    simpa [normRow, isNaT] using this
  exact ⟨hchar df0, hchar frame, hclean df0, hclean frame⟩

/-- C3 witness: on a concrete two-row frame (one parseable, one not), the
cleaned frame of both renderers is exactly the cleaned parseable row. -/
theorem unparseable_time_rows_excluded_witness :
    timeGraphData [rowMorningA, rowBadTime]
        = ([rowMorningA, rowBadTime].filter hasTime).map cleanRow
    ∧ isNaT (cleanRow rowMorningA).queryTime = false :=
  ⟨(unparseable_time_rows_excluded [rowMorningA, rowBadTime] []).1,
   (unparseable_time_rows_excluded [rowMorningA, rowBadTime] []).2.2.1
     (cleanRow rowMorningA) (by decide)⟩

/-- C4: heat-map clipping.  Clipping deletes no surviving row, and on each
row that survived the missing-price drop a regular price below 100 becomes
exactly 100, above 200 becomes exactly 200, in-range stays put; premium
likewise at [150,250]. -/
theorem heatmap_price_clipping (rows : List Row) (r : Row)
    (hr : r ∈ dropnaPrices rows) :
    (clipPrices (dropnaPrices rows)).length = (dropnaPrices rows).length
    ∧ clipRow r ∈ clipPrices (dropnaPrices rows)
    ∧ (∀ q : ℚ, r.regularPrice = some q →
        (q < 100 → (clipRow r).regularPrice = some 100)
        ∧ (200 < q → (clipRow r).regularPrice = some 200)
        ∧ (100 ≤ q → q ≤ 200 → (clipRow r).regularPrice = some q))
    ∧ (∀ q : ℚ, r.premiumPrice = some q →
        (q < 150 → (clipRow r).premiumPrice = some 150)
        ∧ (250 < q → (clipRow r).premiumPrice = some 250)
        ∧ (150 ≤ q → q ≤ 250 → (clipRow r).premiumPrice = some q)) := by
  refine ⟨List.length_map _ _, List.mem_map_of_mem _ hr, ?_, ?_⟩
  · intro q hq
    refine ⟨fun h => ?_, fun h => ?_, fun h1 h2 => ?_⟩
    · simp only [clipRow, hq, Option.map_some']
      rw [clipQ, max_eq_left h.le, min_eq_right (by norm_num)]
    · simp only [clipRow, hq, Option.map_some']
      rw [clipQ, max_eq_right (by linarith), min_eq_left h.le]
    · simp only [clipRow, hq, Option.map_some']
      rw [clipQ, max_eq_right h1, min_eq_right h2]
  · intro q hq
    refine ⟨fun h => ?_, fun h => ?_, fun h1 h2 => ?_⟩
    · simp only [clipRow, hq, Option.map_some']
      rw [clipQ, max_eq_left h.le, min_eq_right (by norm_num)]
    · simp only [clipRow, hq, Option.map_some']
      rw [clipQ, max_eq_right (by linarith), min_eq_left h.le]
    · simp only [clipRow, hq, Option.map_some']
      rw [clipQ, max_eq_right h1, min_eq_right h2]

/-- C4 witness: a concrete frame where one row has regular 999 (clips to
200) and premium 5 (clips to 150). -/
theorem heatmap_price_clipping_witness :
    rowEvening ∈ dropnaPrices [rowEvening]
    ∧ (clipRow rowEvening).regularPrice = some 200
    ∧ (clipRow rowEvening).premiumPrice = some 150 :=
  ⟨by decide,
   ((heatmap_price_clipping [rowEvening] rowEvening (by decide)).2.2.1 999
       (by decide)).2.1 (by decide),
   ((heatmap_price_clipping [rowEvening] rowEvening (by decide)).2.2.2 5
       (by decide)).1 (by decide)⟩

/-- C10: the color-scale locals are read only under the very condition
under which they were bound, so rendering never hits an unbound name — on
every aggregated table (the empty one included, where both range checks
are false) the checked rendering succeeds and agrees with the rendering. -/
theorem color_scale_names_always_bound (agg : List AggRow) :
    heatMapRenderChecked agg = some (heatMapRender agg) := by
  rw [heatMapRenderChecked, regularLayerBuild, regularLegendBuild,
      premiumLayerBuild, premiumLegendBuild, regularColorScaleEnv,
      premiumColorScaleEnv, heatMapRender]
  cases hrc : regCond agg <;> cases hpc : premCond agg <;> simp [hrc, hpc]

/-- C5: degenerate-range policy.  Whenever the aggregated regular range is
degenerate (min not strictly below max, NaN comparisons on an empty table
included) the regular layer and its legend are omitted and the warning is
logged — unconditionally, the both-degenerate case included — while the
premium layer and legend are still produced whenever the premium range is
non-degenerate; and symmetrically with the two price types swapped. -/
theorem degenerate_range_layer_omitted (agg : List AggRow) :
    (regCond agg = false →
      (heatMapRender agg).regularLayer = none
      ∧ (heatMapRender agg).regularLegend = none
      ∧ "Warning: Invalid thresholds for regular prices." ∈ (heatMapRender agg).log
      ∧ (premCond agg = true →
          ((heatMapRender agg).premiumLayer).isSome = true
          ∧ ((heatMapRender agg).premiumLegend).isSome = true))
    ∧ (premCond agg = false →
      (heatMapRender agg).premiumLayer = none
      ∧ (heatMapRender agg).premiumLegend = none
      ∧ "Warning: Invalid thresholds for premium prices." ∈ (heatMapRender agg).log
      ∧ (regCond agg = true →
          ((heatMapRender agg).regularLayer).isSome = true
          ∧ ((heatMapRender agg).regularLegend).isSome = true)) := by
  constructor
  · intro hrc
    refine ⟨by simp [heatMapRender, hrc], by simp [heatMapRender, hrc], ?_, ?_⟩
    · simp [heatMapRender, regWarn, hrc, List.mem_append]
    · intro hpc
      constructor <;> simp [heatMapRender, hpc]
  · intro hpc
    refine ⟨by simp [heatMapRender, hpc], by simp [heatMapRender, hpc], ?_, ?_⟩
    · simp [heatMapRender, premWarn, hpc, List.mem_append]
    · intro hrc
      constructor <;> simp [heatMapRender, hrc]

/-- C5 witness: two stations with identical regular means but distinct
premium means keep only the premium layer; the mirrored table keeps only
the regular layer; and a single station — both ranges degenerate — keeps
neither layer and logs both warnings. -/
theorem degenerate_range_layer_omitted_witness :
    ((heatMapRender [⟨1, "A", some 43, some (-79), 130, 160⟩,
        ⟨2, "B", some 44, some (-80), 130, 170⟩]).regularLayer = none
      ∧ (heatMapRender [⟨1, "A", some 43, some (-79), 130, 160⟩,
        ⟨2, "B", some 44, some (-80), 130, 170⟩]).regularLegend = none
      ∧ "Warning: Invalid thresholds for regular prices." ∈
          (heatMapRender [⟨1, "A", some 43, some (-79), 130, 160⟩,
            ⟨2, "B", some 44, some (-80), 130, 170⟩]).log
      ∧ ((heatMapRender [⟨1, "A", some 43, some (-79), 130, 160⟩,
        ⟨2, "B", some 44, some (-80), 130, 170⟩]).premiumLayer).isSome = true
      ∧ ((heatMapRender [⟨1, "A", some 43, some (-79), 130, 160⟩,
        ⟨2, "B", some 44, some (-80), 130, 170⟩]).premiumLegend).isSome = true)
    ∧ ((heatMapRender [⟨1, "A", some 43, some (-79), 120, 160⟩,
        ⟨2, "B", some 44, some (-80), 130, 160⟩]).premiumLayer = none
      ∧ (heatMapRender [⟨1, "A", some 43, some (-79), 120, 160⟩,
        ⟨2, "B", some 44, some (-80), 130, 160⟩]).premiumLegend = none
      ∧ "Warning: Invalid thresholds for premium prices." ∈
          (heatMapRender [⟨1, "A", some 43, some (-79), 120, 160⟩,
            ⟨2, "B", some 44, some (-80), 130, 160⟩]).log
      ∧ ((heatMapRender [⟨1, "A", some 43, some (-79), 120, 160⟩,
        ⟨2, "B", some 44, some (-80), 130, 160⟩]).regularLayer).isSome = true
      ∧ ((heatMapRender [⟨1, "A", some 43, some (-79), 120, 160⟩,
        ⟨2, "B", some 44, some (-80), 130, 160⟩]).regularLegend).isSome = true)
    ∧ ((heatMapRender [⟨1, "A", some 43, some (-79), 130, 160⟩]).regularLayer = none
      ∧ (heatMapRender [⟨1, "A", some 43, some (-79), 130, 160⟩]).regularLegend = none
      ∧ "Warning: Invalid thresholds for regular prices." ∈
          (heatMapRender [⟨1, "A", some 43, some (-79), 130, 160⟩]).log
      ∧ (heatMapRender [⟨1, "A", some 43, some (-79), 130, 160⟩]).premiumLayer = none
      ∧ (heatMapRender [⟨1, "A", some 43, some (-79), 130, 160⟩]).premiumLegend = none
      ∧ "Warning: Invalid thresholds for premium prices." ∈
          (heatMapRender [⟨1, "A", some 43, some (-79), 130, 160⟩]).log) := by
  obtain ⟨h1a, h1b, h1c, h1d⟩ := (degenerate_range_layer_omitted
    [⟨1, "A", some 43, some (-79), 130, 160⟩,
     ⟨2, "B", some 44, some (-80), 130, 170⟩]).1 (by decide)
  obtain ⟨h1d1, h1d2⟩ := h1d (by decide)
  obtain ⟨h2a, h2b, h2c, h2d⟩ := (degenerate_range_layer_omitted
    [⟨1, "A", some 43, some (-79), 120, 160⟩,
     ⟨2, "B", some 44, some (-80), 130, 160⟩]).2 (by decide)
  obtain ⟨h2d1, h2d2⟩ := h2d (by decide)
  obtain ⟨h3a, h3b, h3c, -⟩ := (degenerate_range_layer_omitted
    [⟨1, "A", some 43, some (-79), 130, 160⟩]).1 (by decide)
  obtain ⟨h4a, h4b, h4c, -⟩ := (degenerate_range_layer_omitted
    [⟨1, "A", some 43, some (-79), 130, 160⟩]).2 (by decide)
  exact ⟨⟨h1a, h1b, h1c, h1d1, h1d2⟩, ⟨h2a, h2b, h2c, h2d1, h2d2⟩,
    h3a, h3b, h3c, h4a, h4b, h4c⟩

/-- setCoords changes only the coordinate columns. -/
theorem setCoords_fields {r r2 : Row} (h : setCoords r = some r2) :
    r2.regularPrice = r.regularPrice ∧ r2.premiumPrice = r.premiumPrice
    ∧ r2.queryTime = r.queryTime := by
  rcases hl : r.location with ⟨la, lo⟩ | s <;>
    simp [setCoords, evalLoc, hl] at h <;> subst h <;> simp

/-- C9: plotHeatMap applies no timestamp filtering.  A row whose Query
Time is NaT after coercion still reaches the heat-map aggregation input,
provided its Location parses (the whole column assignment succeeded) and
both prices are present. -/
theorem heatmap_keeps_unparseable_time_rows (df df2 : List Row) (r r2 : Row)
    (hdf : mapOpt setCoords df = some df2)
    (hr : r ∈ df) (hco : setCoords r = some r2)
    (hbad : isNaT (toDatetime r.queryTime) = true)
    (hreg : r.regularPrice.isSome = true) (hprem : r.premiumPrice.isSome = true) :
    heatBase df = some (clipPrices (dropnaPrices df2))
    ∧ clipRow r2 ∈ clipPrices (dropnaPrices df2) := by
  constructor
  · rw [heatBase, hdf]
    rfl
  · have hmem : r2 ∈ df2 := mapOpt_mem setCoords hdf hr hco
    rcases setCoords_fields hco with ⟨h1, h2, _⟩
    have hdrop : r2 ∈ dropnaPrices df2 := by
      rw [dropnaPrices, List.mem_filter]
      exact ⟨hmem, by rw [h1, h2, hreg, hprem]; rfl⟩
    exact List.mem_map_of_mem _ hdrop

/-- C9 witness: a one-row frame whose only row has an unparseable Query
Time but a valid location and both prices; it survives into the clipped
heat-map aggregation input. -/
theorem heatmap_keeps_unparseable_time_rows_witness :
    heatBase [rowBadTime] = some (clipPrices (dropnaPrices
        [{ rowBadTime with latitude := some 44, longitude := some (-80) }]))
    ∧ clipRow { rowBadTime with latitude := some 44, longitude := some (-80) }
        ∈ clipPrices (dropnaPrices
            [{ rowBadTime with latitude := some 44, longitude := some (-80) }]) :=
  heatmap_keeps_unparseable_time_rows [rowBadTime]
    [{ rowBadTime with latitude := some 44, longitude := some (-80) }]
    rowBadTime { rowBadTime with latitude := some 44, longitude := some (-80) }
    (by decide) (by decide) (by decide) (by decide) (by decide) (by decide)

/-- Aggregating two rows with the same group key yields the single group
with the componentwise means. -/
theorem avgPrices_pair (r1 r2 : Row) (h : keyOf r2 = keyOf r1) :
    avgPrices [r1, r2]
      = [{ stationId := (keyOf r1).1, stationName := (keyOf r1).2.1,
           latitude := (keyOf r1).2.2.1, longitude := (keyOf r1).2.2.2,
           regular := meanQ ([r1, r2].filterMap (fun r => r.regularPrice)),
           premium := meanQ ([r1, r2].filterMap (fun r => r.premiumPrice)) }] := by
  have hg : groupOf [r1, r2] (keyOf r1) = [r1, r2] := by
    simp [groupOf, List.filter, h]
  rw [avgPrices]
  simp only [List.map_cons, List.map_nil, h]
  rw [List.dedup_cons_of_mem (by simp), List.dedup_cons_of_not_mem (by simp),
    List.dedup_nil]
  simp only [List.map_cons, List.map_nil, hg]

/-- C7: per-station aggregation and popup display.  A station with exactly
two surviving observations at regular prices 120 and 140 (in range, so
clipping is the identity on them) aggregates, under the
(id, name, latitude, longitude) group key, to mean regular price 130,
and the marker popup renders that mean with two decimals as 130.00. -/
theorem station_mean_and_popup (sid : Nat) (nm ad1 ad2 tg1 tg2 : String)
    (la lo p1 p2 : ℚ) (t1 t2 : TimeCell) :
    heatAgg [{ stationId := sid, stationName := nm, address := ad1,
               location := .valid la lo, timeTag := tg1, queryTime := t1,
               regularPrice := some 120, premiumPrice := some p1 },
             { stationId := sid, stationName := nm, address := ad2,
               location := .valid la lo, timeTag := tg2, queryTime := t2,
               regularPrice := some 140, premiumPrice := some p2 }]
      = some [{ stationId := sid, stationName := nm, latitude := some la,
                longitude := some lo, regular := 130,
                premium := (clipQ 150 250 p1 + clipQ 150 250 p2) / 2 }]
    ∧ ∀ cs : LinearColormap,
        (mkRegMarker cs
          { stationId := sid, stationName := nm,
            latitude := some la, longitude := some lo, regular := 130,
            premium := (clipQ 150 250 p1 + clipQ 150 250 p2) / 2 }).popup
          = "Station: " ++ nm ++ "<br>Regular Price: " ++ "130.00" := by
  have hf : fmt2 130 = "130.00" := by
    have h1 : (⌊(130 : ℚ) * 100 + 1 / 2⌋ : Int) = 13000 := by norm_num
    simp only [fmt2, h1]
    decide
  constructor
  · have h1 : heatBase
        [{ stationId := sid, stationName := nm, address := ad1,
           location := .valid la lo, timeTag := tg1, queryTime := t1,
           regularPrice := some 120, premiumPrice := some p1 },
         { stationId := sid, stationName := nm, address := ad2,
           location := .valid la lo, timeTag := tg2, queryTime := t2,
           regularPrice := some 140, premiumPrice := some p2 }]
        = some
        [{ stationId := sid, stationName := nm, address := ad1,
           location := .valid la lo, timeTag := tg1, queryTime := t1,
           regularPrice := some (clipQ 100 200 120),
           premiumPrice := some (clipQ 150 250 p1),
           latitude := some la, longitude := some lo },
         { stationId := sid, stationName := nm, address := ad2,
           location := .valid la lo, timeTag := tg2, queryTime := t2,
           regularPrice := some (clipQ 100 200 140),
           premiumPrice := some (clipQ 150 250 p2),
           latitude := some la, longitude := some lo }] := rfl
    have hv1 : clipQ 100 200 120 = 120 := by decide
    have hv2 : clipQ 100 200 140 = 140 := by decide
    rw [heatAgg, h1, Option.map_some']
    refine congrArg some (Eq.trans (avgPrices_pair _ _ rfl) ?_)
    simp only [List.cons.injEq, AggRow.mk.injEq, and_true]
    refine ⟨rfl, rfl, rfl, rfl, ?_, ?_⟩
    · show meanQ [clipQ 100 200 120, clipQ 100 200 140] = 130
      rw [hv1, hv2]
      norm_num [meanQ]
    · show meanQ [clipQ 150 250 p1, clipQ 150 250 p2]
          = (clipQ 150 250 p1 + clipQ 150 250 p2) / 2
      norm_num [meanQ]
  · intro cs
    simp only [mkRegMarker, hf]

/-- The mean of a nonempty column is defined. -/
theorem meanOpt_cons (a : ℚ) (l : List ℚ) :
    meanOpt (a :: l) = some (meanQ (a :: l)) := by
  simp [meanOpt]

/-- C1 (corrected), counterexample: on the three-row scenario the
time-series pivot cell for "evening" is computed from the raw prices — it is
the mean of regular 999 and premium 5, not of the clipped 200 and 150.
plotTimeGraph never clips; clipping lives in plotHeatMap. -/
theorem timegraph_evening_cell_unclipped_cex :
    cellMean (timeGraphData [rowMorningA, rowMorningB, rowEvening])
        (fun r => r.regularPrice) 0 "evening" = some 999
    ∧ cellMean (timeGraphData [rowMorningA, rowMorningB, rowEvening])
        (fun r => r.premiumPrice) 0 "evening" = some 5
    ∧ ¬(cellMean (timeGraphData [rowMorningA, rowMorningB, rowEvening])
        (fun r => r.regularPrice) 0 "evening" = some 200
      ∧ cellMean (timeGraphData [rowMorningA, rowMorningB, rowEvening])
        (fun r => r.premiumPrice) 0 "evening" = some 150) := by
  have hr : ((timeGraphData [rowMorningA, rowMorningB, rowEvening]).filter
      (fun r => dateOf r == some 0 && r.timeTag == "evening")).filterMap
        (fun r => r.regularPrice) = [(999 : ℚ)] := by decide
  have hp : ((timeGraphData [rowMorningA, rowMorningB, rowEvening]).filter
      (fun r => dateOf r == some 0 && r.timeTag == "evening")).filterMap
        (fun r => r.premiumPrice) = [(5 : ℚ)] := by decide
  have h999 : cellMean (timeGraphData [rowMorningA, rowMorningB, rowEvening])
      (fun r => r.regularPrice) 0 "evening" = some 999 := by
    rw [cellMean, hr, meanOpt_cons]
    norm_num [meanQ, List.sum_cons, List.sum_nil]
  have h5 : cellMean (timeGraphData [rowMorningA, rowMorningB, rowEvening])
      (fun r => r.premiumPrice) 0 "evening" = some 5 := by
    rw [cellMean, hp, meanOpt_cons]
    norm_num [meanQ, List.sum_cons, List.sum_nil]
  refine ⟨h999, h5, fun hc => ?_⟩
  rw [h999] at hc
  have h200 := hc.1
  simp at h200

/-- C1 (amended): tag normalization collapses the "Morning" and
"morning " rows into a single "morning" pivot point with mean regular 120
and mean premium 170; the "evening" pivot point is computed from the raw
prices 999 and 5; the clipping of 999 to 200 and of 5 to 150 happens
instead in the heat-map renderer, before its per-station aggregation. -/
theorem timegraph_scenario_amended :
    cellMean (timeGraphData [rowMorningA, rowMorningB, rowEvening])
        (fun r => r.regularPrice) 0 "morning" = some 120
    ∧ cellMean (timeGraphData [rowMorningA, rowMorningB, rowEvening])
        (fun r => r.premiumPrice) 0 "morning" = some 170
    ∧ cellMean (timeGraphData [rowMorningA, rowMorningB, rowEvening])
        (fun r => r.regularPrice) 0 "evening" = some 999
    ∧ cellMean (timeGraphData [rowMorningA, rowMorningB, rowEvening])
        (fun r => r.premiumPrice) 0 "evening" = some 5
    ∧ heatBase (heatMapReceives [rowMorningA, rowMorningB, rowEvening])
      = some
        [{ stationId := 1, stationName := "Station A", address := "1 Main St",
           location := .valid 43 (-79), timeTag := "Morning",
           queryTime := .coerced (some 600), regularPrice := some 110,
           premiumPrice := some 160, latitude := some 43, longitude := some (-79) },
         { stationId := 1, stationName := "Station A", address := "1 Main St",
           location := .valid 43 (-79), timeTag := "morning ",
           queryTime := .coerced (some 700), regularPrice := some 130,
           premiumPrice := some 180, latitude := some 43, longitude := some (-79) },
         { stationId := 1, stationName := "Station A", address := "1 Main St",
           location := .valid 43 (-79), timeTag := "Evening",
           queryTime := .coerced (some 1200), regularPrice := some 200,
           premiumPrice := some 150, latitude := some 43, longitude := some (-79) }] := by
  have hmr : ((timeGraphData [rowMorningA, rowMorningB, rowEvening]).filter
      (fun r => dateOf r == some 0 && r.timeTag == "morning")).filterMap
        (fun r => r.regularPrice) = [(110 : ℚ), 130] := by decide
  have hmp : ((timeGraphData [rowMorningA, rowMorningB, rowEvening]).filter
      (fun r => dateOf r == some 0 && r.timeTag == "morning")).filterMap
        (fun r => r.premiumPrice) = [(160 : ℚ), 180] := by decide
  have her : ((timeGraphData [rowMorningA, rowMorningB, rowEvening]).filter
      (fun r => dateOf r == some 0 && r.timeTag == "evening")).filterMap
        (fun r => r.regularPrice) = [(999 : ℚ)] := by decide
  have hep : ((timeGraphData [rowMorningA, rowMorningB, rowEvening]).filter
      (fun r => dateOf r == some 0 && r.timeTag == "evening")).filterMap
        (fun r => r.premiumPrice) = [(5 : ℚ)] := by decide
  refine ⟨?_, ?_, ?_, ?_, by decide⟩
  · rw [cellMean, hmr, meanOpt_cons]
    norm_num [meanQ, List.sum_cons, List.sum_nil]
  · rw [cellMean, hmp, meanOpt_cons]
    norm_num [meanQ, List.sum_cons, List.sum_nil]
  · rw [cellMean, her, meanOpt_cons]
    norm_num [meanQ, List.sum_cons, List.sum_nil]
  · rw [cellMean, hep, meanOpt_cons]
    norm_num [meanQ, List.sum_cons, List.sum_nil]

/-! File-system lemmas for the delete-then-save step. -/

/-- Looking up a path at a matching head entry. -/
theorem fsLookup_cons_pos {e : String × FileContent} {rest : FS} {p : String}
    (h : (e.1 == p) = true) : fsLookup (e :: rest) p = some e.2 := by
  simp only [fsLookup, List.find?, h, Option.map_some']

/-- Looking up a path past a non-matching head entry. -/
theorem fsLookup_cons_neg {e : String × FileContent} {rest : FS} {p : String}
    (h : (e.1 == p) = false) : fsLookup (e :: rest) p = fsLookup rest p := by
  simp only [fsLookup, List.find?, h]

/-- Removing a path drops a matching head entry. -/
theorem fsRemove_cons_hit {e : String × FileContent} {rest : FS} {p : String}
    (h : (e.1 == p) = true) : fsRemove (e :: rest) p = fsRemove rest p := by
  simp [fsRemove, List.filter_cons, h]

/-- Removing a path keeps a non-matching head entry. -/
theorem fsRemove_cons_miss {e : String × FileContent} {rest : FS} {p : String}
    (h : (e.1 == p) = false) : fsRemove (e :: rest) p = e :: fsRemove rest p := by
  simp [fsRemove, List.filter_cons, h]

/-- Writing a previously absent path makes it readable. -/
theorem fsLookup_write_self {fs : FS} {p : String} {c : FileContent}
    (h : fsLookup fs p = none) : fsLookup (fsWrite fs p c) p = some c := by
  induction fs with
  | nil =>
    rw [show fsWrite [] p c = [(p, c)] from rfl, fsLookup_cons_pos (by simp)]
  | cons e rest ih =>
    cases hq : (e.1 == p) with
    | true =>
      rw [fsLookup_cons_pos hq] at h
      exact absurd h (by simp)
    | false =>
      rw [fsLookup_cons_neg hq] at h
      rw [show fsWrite (e :: rest) p c = e :: fsWrite rest p c from rfl,
        fsLookup_cons_neg hq]
      exact ih h

/-- After removal the path is gone. -/
theorem fsLookup_remove_self (fs : FS) (p : String) :
    fsLookup (fsRemove fs p) p = none := by
  induction fs with
  | nil => rfl
  | cons e rest ih =>
    cases hq : (e.1 == p) with
    | true =>
      rw [fsRemove_cons_hit hq]
      exact ih
    | false =>
      rw [fsRemove_cons_miss hq, fsLookup_cons_neg hq]
      exact ih

/-- Removing one path leaves the others readable. -/
theorem fsLookup_remove_other {fs : FS} {p p2 : String}
    (h : (p2 == p) = false) : fsLookup (fsRemove fs p) p2 = fsLookup fs p2 := by
  have hne : p2 ≠ p := beq_eq_false_iff_ne.mp h
  induction fs with
  | nil => rfl
  | cons e rest ih =>
    cases hq : (e.1 == p) with
    | true =>
      have hb2 : (e.1 == p2) = false := by
        refine beq_eq_false_iff_ne.mpr ?_
        rw [eq_of_beq hq]
        exact fun hh => hne hh.symm
      rw [fsRemove_cons_hit hq, fsLookup_cons_neg hb2]
      exact ih
    | false =>
      cases hq2 : (e.1 == p2) with
      | true =>
        rw [fsRemove_cons_miss hq, fsLookup_cons_pos hq2, fsLookup_cons_pos hq2]
      | false =>
        rw [fsRemove_cons_miss hq, fsLookup_cons_neg hq2, fsLookup_cons_neg hq2]
        exact ih

/-- Writing one path leaves the others unchanged. -/
theorem fsLookup_write_other {fs : FS} {p p2 : String} {c : FileContent}
    (h : (p2 == p) = false) : fsLookup (fsWrite fs p c) p2 = fsLookup fs p2 := by
  have hne : p2 ≠ p := beq_eq_false_iff_ne.mp h
  have hb : ((p, c).1 == p2) = false := beq_eq_false_iff_ne.mpr fun hh => hne hh.symm
  induction fs with
  | nil =>
    rw [show fsWrite [] p c = [(p, c)] from rfl, fsLookup_cons_neg hb]
  | cons e rest ih =>
    cases hq2 : (e.1 == p2) with
    | true =>
      rw [show fsWrite (e :: rest) p c = e :: fsWrite rest p c from rfl,
        fsLookup_cons_pos hq2, fsLookup_cons_pos hq2]
    | false =>
      rw [show fsWrite (e :: rest) p c = e :: fsWrite rest p c from rfl,
        fsLookup_cons_neg hq2, fsLookup_cons_neg hq2]
      exact ih

/-- The delete-then-save step never touches other paths. -/
theorem saveStep_lookup_other (rf sf : Bool) (p : String) (c : FileContent)
    (st : PState) (p2 : String) (h : (p2 == p) = false) :
    fsLookup (saveStep rf sf p c st).fs p2 = fsLookup st.fs p2 := by
  rcases hl : fsLookup st.fs p with _ | d <;> cases rf <;> cases sf <;>
    simp [saveStep, hl, fsLookup_write_other h, fsLookup_remove_other h]

/-- A fault-free delete-then-save step leaves the fresh content at its
path. -/
theorem saveStep_lookup_self (p : String) (c : FileContent) (st : PState) :
    fsLookup (saveStep false false p c st).fs p = some c := by
  rcases hl : fsLookup st.fs p with _ | d <;> simp [saveStep, hl]
  · exact fsLookup_write_self hl
  · exact fsLookup_write_self (fsLookup_remove_self _ _)

/-- What the step appends to the write trace: nothing on a fault,
the one fresh file otherwise. -/
theorem saveStep_writes (rf sf : Bool) (p : String) (c : FileContent)
    (st : PState) :
    (saveStep rf sf p c st).writes
      = st.writes ++ (if stepThrows rf sf st.fs p = true then [] else [(p, c)]) := by
  rcases hl : fsLookup st.fs p with _ | d <;> cases rf <;> cases sf <;>
    simp [saveStep, stepThrows, hl]

/-- The step only appends to the log. -/
theorem saveStep_log_mono (rf sf : Bool) (p : String) (c : FileContent)
    (st : PState) {x : String} (h : x ∈ st.log) :
    x ∈ (saveStep rf sf p c st).log := by
  rcases hl : fsLookup st.fs p with _ | d <;> cases rf <;> cases sf <;>
    simp [saveStep, hl, List.mem_append, h]

/-- A faulting step logs its exception message. -/
theorem saveStep_err_log (rf sf : Bool) (p : String) (c : FileContent)
    (st : PState) (h : stepThrows rf sf st.fs p = true) :
    errLog ("remove failed: " ++ p) ∈ (saveStep rf sf p c st).log
    ∨ errLog ("save failed: " ++ p) ∈ (saveStep rf sf p c st).log := by
  rcases hl : fsLookup st.fs p with _ | d <;> cases rf <;> cases sf <;>
    simp [saveStep, stepThrows, hl] at h ⊢

/-- A fault-free step logs the saved confirmation and records its write. -/
theorem saveStep_ok (rf sf : Bool) (p : String) (c : FileContent)
    (st : PState) (h : stepThrows rf sf st.fs p = false) :
    savedLog p ∈ (saveStep rf sf p c st).log
    ∧ (p, c) ∈ (saveStep rf sf p c st).writes := by
  rcases hl : fsLookup st.fs p with _ | d <;> cases rf <;> cases sf <;>
    simp [saveStep, stepThrows, hl] at h ⊢

/-- Every recorded write of a step is an old one or at the path of the step. -/
theorem saveStep_writes_paths (rf sf : Bool) (p : String) (c : FileContent)
    (st : PState) {e : String × FileContent}
    (he : e ∈ (saveStep rf sf p c st).writes) : e ∈ st.writes ∨ e.1 = p := by
  rw [saveStep_writes] at he
  rcases List.mem_append.mp he with h | h
  · exact Or.inl h
  · right
    rcases hthr : stepThrows rf sf st.fs p
    · rw [hthr] at h
      simp at h
      rw [h]
    · rw [hthr] at h
      simp at h

/-- Earlier writes survive later steps. -/
theorem saveStep_writes_mono (rf sf : Bool) (p : String) (c : FileContent)
    (st : PState) {e : String × FileContent} (h : e ∈ st.writes) :
    e ∈ (saveStep rf sf p c st).writes := by
  rw [saveStep_writes]
  exact List.mem_append_left _ h

/-- Whether a step throws depends on the file system only through its own
path. -/
theorem stepThrows_congr (rf sf : Bool) {fs fs2 : FS} {p : String}
    (h : fsLookup fs p = fsLookup fs2 p) :
    stepThrows rf sf fs p = stepThrows rf sf fs2 p := by
  rw [stepThrows, stepThrows, h]

/-- Writes surviving two further steps come from the base state or from
one of the two own paths of the steps. -/
theorem saveStep_writes_paths2 (rfA sfA : Bool) (pA : String) (cA : FileContent)
    (rfB sfB : Bool) (pB : String) (cB : FileContent) (st : PState)
    {e : String × FileContent}
    (he : e ∈ (saveStep rfB sfB pB cB (saveStep rfA sfA pA cA st)).writes) :
    e ∈ st.writes ∨ e.1 = pA ∨ e.1 = pB := by
  rcases saveStep_writes_paths _ _ _ _ _ he with h | h
  · rcases saveStep_writes_paths _ _ _ _ _ h with h2 | h2
    · exact Or.inl h2
    · exact Or.inr (Or.inl h2)
  · exact Or.inr (Or.inr h)

/-- C6: any exception injected into a delete-then-save step is caught:
the pipeline still returns (all renderers run to completion), the faulting
renderer performs no write and logs the exception, and each fault-free
renderer still writes its file and logs its confirmation — independently
for each of the three renderers. -/
theorem save_exceptions_caught (rf1 sf1 rf2 sf2 rf3 sf3 : Bool)
    (df0 df2 : List Row) (fs0 : FS) (log0 : List String)
    (hloc : mapOpt setCoords (plotTimeGraphEffect df0) = some df2) :
    ∃ st3 : PState,
      runPipeline rf1 sf1 rf2 sf2 rf3 sf3 df0 ⟨fs0, log0, []⟩ = some st3
      ∧ (stepThrows rf1 sf1 fs0 tsOutputPath = true →
          (∀ c, (tsOutputPath, c) ∉ st3.writes)
          ∧ (errLog ("remove failed: " ++ tsOutputPath) ∈ st3.log
             ∨ errLog ("save failed: " ++ tsOutputPath) ∈ st3.log))
      ∧ (stepThrows rf1 sf1 fs0 tsOutputPath = false →
          (tsOutputPath, tsContent df0) ∈ st3.writes
          ∧ savedLog tsOutputPath ∈ st3.log)
      ∧ (stepThrows rf2 sf2 fs0 hmOutputPath = true →
          (∀ c, (hmOutputPath, c) ∉ st3.writes)
          ∧ (errLog ("remove failed: " ++ hmOutputPath) ∈ st3.log
             ∨ errLog ("save failed: " ++ hmOutputPath) ∈ st3.log))
      ∧ (stepThrows rf2 sf2 fs0 hmOutputPath = false →
          (hmOutputPath, hmContent df2) ∈ st3.writes
          ∧ savedLog hmOutputPath ∈ st3.log)
      ∧ (stepThrows rf3 sf3 fs0 itOutputPath = true →
          (∀ c, (itOutputPath, c) ∉ st3.writes)
          ∧ (errLog ("remove failed: " ++ itOutputPath) ∈ st3.log
             ∨ errLog ("save failed: " ++ itOutputPath) ∈ st3.log))
      ∧ (stepThrows rf3 sf3 fs0 itOutputPath = false →
          (itOutputPath, itContent df2) ∈ st3.writes
          ∧ savedLog itOutputPath ∈ st3.log) := by
  have hlk1 : fsLookup (saveStep rf1 sf1 tsOutputPath (tsContent df0)
      ⟨fs0, log0, []⟩).fs hmOutputPath = fsLookup fs0 hmOutputPath :=
    saveStep_lookup_other rf1 sf1 _ _ _ _ (by decide)
  have hth2 : stepThrows rf2 sf2 (saveStep rf1 sf1 tsOutputPath (tsContent df0)
      ⟨fs0, log0, []⟩).fs hmOutputPath = stepThrows rf2 sf2 fs0 hmOutputPath :=
    stepThrows_congr _ _ hlk1
  have hlk2 : fsLookup (saveStep rf2 sf2 hmOutputPath (hmContent df2)
      (saveStep rf1 sf1 tsOutputPath (tsContent df0)
        ⟨fs0, log0, []⟩)).fs itOutputPath = fsLookup fs0 itOutputPath :=
    (saveStep_lookup_other rf2 sf2 _ _ _ _ (by decide)).trans
      (saveStep_lookup_other rf1 sf1 _ _ _ _ (by decide))
  have hth3 : stepThrows rf3 sf3 (saveStep rf2 sf2 hmOutputPath (hmContent df2)
      (saveStep rf1 sf1 tsOutputPath (tsContent df0)
        ⟨fs0, log0, []⟩)).fs itOutputPath = stepThrows rf3 sf3 fs0 itOutputPath :=
    stepThrows_congr _ _ hlk2
  refine ⟨saveStep rf3 sf3 itOutputPath (itContent df2)
      (saveStep rf2 sf2 hmOutputPath (hmContent df2)
        (saveStep rf1 sf1 tsOutputPath (tsContent df0) ⟨fs0, log0, []⟩)),
    by simp only [runPipeline, hloc], ?_, ?_, ?_, ?_, ?_, ?_⟩
  · intro h1
    constructor
    · intro c hc
      have hw1 : (saveStep rf1 sf1 tsOutputPath (tsContent df0)
          ⟨fs0, log0, []⟩).writes = [] := by
        rw [saveStep_writes]
        show [] ++ (if stepThrows rf1 sf1 fs0 tsOutputPath = true
            then [] else [(tsOutputPath, tsContent df0)]) = []
        rw [h1]
        rfl
      rcases saveStep_writes_paths2 _ _ _ _ _ _ _ _ _ hc with h | h | h
      · rw [hw1] at h
        exact List.not_mem_nil _ h
      · exact absurd (show tsOutputPath = hmOutputPath from h) (by decide)
      · exact absurd (show tsOutputPath = itOutputPath from h) (by decide)
    · have h1b : stepThrows rf1 sf1 (⟨fs0, log0, []⟩ : PState).fs
          tsOutputPath = true := h1
      rcases saveStep_err_log rf1 sf1 tsOutputPath (tsContent df0) _ h1b with h | h
      · exact Or.inl (saveStep_log_mono _ _ _ _ _ (saveStep_log_mono _ _ _ _ _ h))
      · exact Or.inr (saveStep_log_mono _ _ _ _ _ (saveStep_log_mono _ _ _ _ _ h))
  · intro h1
    have h1b : stepThrows rf1 sf1 (⟨fs0, log0, []⟩ : PState).fs
        tsOutputPath = false := h1
    obtain ⟨hl, hw⟩ := saveStep_ok rf1 sf1 tsOutputPath (tsContent df0) _ h1b
    exact ⟨saveStep_writes_mono _ _ _ _ _ (saveStep_writes_mono _ _ _ _ _ hw),
      saveStep_log_mono _ _ _ _ _ (saveStep_log_mono _ _ _ _ _ hl)⟩
  · intro h2
    constructor
    · intro c hc
      rcases saveStep_writes_paths _ _ _ _ _ hc with h | h
      · have hw2 : (saveStep rf2 sf2 hmOutputPath (hmContent df2)
            (saveStep rf1 sf1 tsOutputPath (tsContent df0)
              ⟨fs0, log0, []⟩)).writes
            = (saveStep rf1 sf1 tsOutputPath (tsContent df0)
                ⟨fs0, log0, []⟩).writes := by
          rw [saveStep_writes, hth2, h2]
          simp
        rw [hw2] at h
        rcases saveStep_writes_paths _ _ _ _ _ h with h3 | h3
        · exact List.not_mem_nil _ h3
        · exact absurd (show hmOutputPath = tsOutputPath from h3) (by decide)
      · exact absurd (show hmOutputPath = itOutputPath from h) (by decide)
    · have h2b : stepThrows rf2 sf2 (saveStep rf1 sf1 tsOutputPath
          (tsContent df0) ⟨fs0, log0, []⟩).fs hmOutputPath = true := by
        rw [hth2]
        exact h2
      rcases saveStep_err_log rf2 sf2 hmOutputPath (hmContent df2) _ h2b with h | h
      · exact Or.inl (saveStep_log_mono _ _ _ _ _ h)
      · exact Or.inr (saveStep_log_mono _ _ _ _ _ h)
  · intro h2
    have h2b : stepThrows rf2 sf2 (saveStep rf1 sf1 tsOutputPath
        (tsContent df0) ⟨fs0, log0, []⟩).fs hmOutputPath = false := by
      rw [hth2]
      exact h2
    obtain ⟨hl, hw⟩ := saveStep_ok rf2 sf2 hmOutputPath (hmContent df2) _ h2b
    exact ⟨saveStep_writes_mono _ _ _ _ _ hw, saveStep_log_mono _ _ _ _ _ hl⟩
  · intro h3
    constructor
    · intro c hc
      have hw3 : (saveStep rf3 sf3 itOutputPath (itContent df2)
          (saveStep rf2 sf2 hmOutputPath (hmContent df2)
            (saveStep rf1 sf1 tsOutputPath (tsContent df0)
              ⟨fs0, log0, []⟩))).writes
          = (saveStep rf2 sf2 hmOutputPath (hmContent df2)
              (saveStep rf1 sf1 tsOutputPath (tsContent df0)
                ⟨fs0, log0, []⟩)).writes := by
        rw [saveStep_writes, hth3, h3]
        simp
      rw [hw3] at hc
      rcases saveStep_writes_paths2 _ _ _ _ _ _ _ _ _ hc with h | h | h
      · exact List.not_mem_nil _ h
      · exact absurd (show itOutputPath = tsOutputPath from h) (by decide)
      · exact absurd (show itOutputPath = hmOutputPath from h) (by decide)
    · have h3b : stepThrows rf3 sf3 (saveStep rf2 sf2 hmOutputPath
          (hmContent df2) (saveStep rf1 sf1 tsOutputPath (tsContent df0)
            ⟨fs0, log0, []⟩)).fs itOutputPath = true := by
        rw [hth3]
        exact h3
      exact saveStep_err_log rf3 sf3 itOutputPath (itContent df2) _ h3b
  · intro h3
    have h3b : stepThrows rf3 sf3 (saveStep rf2 sf2 hmOutputPath
        (hmContent df2) (saveStep rf1 sf1 tsOutputPath (tsContent df0)
          ⟨fs0, log0, []⟩)).fs itOutputPath = false := by
      rw [hth3]
      exact h3
    obtain ⟨hl, hw⟩ := saveStep_ok rf3 sf3 itOutputPath (itContent df2) _ h3b
    exact ⟨hw, hl⟩

/-- C6 witness: with save faults injected into all three renderers on an
empty input, the pipeline still returns and the time-series renderer
writes nothing but logs its error. -/
theorem save_exceptions_caught_witness :
    ∃ st3 : PState,
      runPipeline false true false true false true [] ⟨[], [], []⟩ = some st3
      ∧ (∀ c, (tsOutputPath, c) ∉ st3.writes)
      ∧ (errLog ("remove failed: " ++ tsOutputPath) ∈ st3.log
         ∨ errLog ("save failed: " ++ tsOutputPath) ∈ st3.log) := by
  obtain ⟨st3, hrun, hts, _, _, _, _, _⟩ :=
    save_exceptions_caught false true false true false true [] [] [] [] rfl
  obtain ⟨hnw, herr⟩ := hts (by decide)
  exact ⟨st3, hrun, hnw, herr⟩

/-- C8: running the fault-free pipeline twice on the same input leaves
the same three output files (each run deletes any pre-existing output at
its fixed path and writes the same input-determined content). -/
theorem pipeline_rerun_equivalent (df0 df2 : List Row) (fs0 : FS)
    (hloc : mapOpt setCoords (plotTimeGraphEffect df0) = some df2) :
    ∃ stA stB : PState,
      runPipeline false false false false false false df0 ⟨fs0, [], []⟩ = some stA
      ∧ runPipeline false false false false false false df0 ⟨stA.fs, [], []⟩ = some stB
      ∧ fsLookup stB.fs tsOutputPath = fsLookup stA.fs tsOutputPath
      ∧ fsLookup stB.fs hmOutputPath = fsLookup stA.fs hmOutputPath
      ∧ fsLookup stB.fs itOutputPath = fsLookup stA.fs itOutputPath
      ∧ fsLookup stA.fs tsOutputPath = some (tsContent df0)
      ∧ fsLookup stA.fs hmOutputPath = some (hmContent df2)
      ∧ fsLookup stA.fs itOutputPath = some (itContent df2) := by
  have hts : ∀ st : PState,
      fsLookup (saveStep false false itOutputPath (itContent df2)
        (saveStep false false hmOutputPath (hmContent df2)
          (saveStep false false tsOutputPath (tsContent df0) st))).fs
        tsOutputPath = some (tsContent df0) := by
    intro st
    rw [saveStep_lookup_other false false _ _ _ _ (by decide),
      saveStep_lookup_other false false _ _ _ _ (by decide),
      saveStep_lookup_self]
  have hhm : ∀ st : PState,
      fsLookup (saveStep false false itOutputPath (itContent df2)
        (saveStep false false hmOutputPath (hmContent df2)
          (saveStep false false tsOutputPath (tsContent df0) st))).fs
        hmOutputPath = some (hmContent df2) := by
    intro st
    rw [saveStep_lookup_other false false _ _ _ _ (by decide),
      saveStep_lookup_self]
  have hit : ∀ st : PState,
      fsLookup (saveStep false false itOutputPath (itContent df2)
        (saveStep false false hmOutputPath (hmContent df2)
          (saveStep false false tsOutputPath (tsContent df0) st))).fs
        itOutputPath = some (itContent df2) := by
    intro st
    rw [saveStep_lookup_self]
  refine ⟨saveStep false false itOutputPath (itContent df2)
      (saveStep false false hmOutputPath (hmContent df2)
        (saveStep false false tsOutputPath (tsContent df0) ⟨fs0, [], []⟩)),
    saveStep false false itOutputPath (itContent df2)
      (saveStep false false hmOutputPath (hmContent df2)
        (saveStep false false tsOutputPath (tsContent df0)
          ⟨(saveStep false false itOutputPath (itContent df2)
              (saveStep false false hmOutputPath (hmContent df2)
                (saveStep false false tsOutputPath (tsContent df0)
                  ⟨fs0, [], []⟩))).fs, [], []⟩)),
    by simp only [runPipeline, hloc], by simp only [runPipeline, hloc],
    ?_, ?_, ?_, hts _, hhm _, hit _⟩
  · exact (hts _).trans (hts _).symm
  · exact (hhm _).trans (hhm _).symm
  · exact (hit _).trans (hit _).symm

/-- C8 witness: on the empty input and empty output directory, both runs
leave the same three files. -/
theorem pipeline_rerun_equivalent_witness :
    ∃ stA stB : PState,
      runPipeline false false false false false false [] ⟨[], [], []⟩ = some stA
      ∧ runPipeline false false false false false false [] ⟨stA.fs, [], []⟩ = some stB
      ∧ fsLookup stB.fs tsOutputPath = fsLookup stA.fs tsOutputPath
      ∧ fsLookup stB.fs hmOutputPath = fsLookup stA.fs hmOutputPath
      ∧ fsLookup stB.fs itOutputPath = fsLookup stA.fs itOutputPath
      ∧ fsLookup stA.fs tsOutputPath = some (tsContent [])
      ∧ fsLookup stA.fs hmOutputPath = some (hmContent [])
      ∧ fsLookup stA.fs itOutputPath = some (itContent []) :=
  pipeline_rerun_equivalent [] [] [] rfl

end GasViz
